import Mathlib

/-!
Verification development for the Santorini repository.

Shallow embedding of the code in `src/santorini/utils.py`,
`src/santorini/board.py` and `src/santorini/env.py`, with theorems that
settle the specification claims about those functions.

Conventions of the embedding:
* Python integers are modelled by `Int`.
* Building heights, which in Python are integers or `math.inf`, are
  modelled by `WithTop Int` (with `⊤` for `math.inf`); note that in
  `WithTop Int` we have `⊤ + 1 = ⊤` and `¬ (⊤ > ⊤)`, matching the
  arithmetic of `math.inf` in Python.
* Functions that can raise `ValueError` return `Except String _`.
* The `defaultdict` board state is modelled by an association list
  together with a lookup that falls back to the default cell
  `(Worker.empty, 0)` exactly as `defaultdict(lambda: [Worker(), 0])`
  does.
-/

/-- Decidable equality for `Except`, used to evaluate the embedded
fallible functions on concrete inputs. -/
instance exceptDecEq {ε α : Type} [DecidableEq ε] [DecidableEq α] :
    DecidableEq (Except ε α) := fun a b =>
  match a, b with
  | .ok x, .ok y =>
    if h : x = y then .isTrue (by rw [h]) else .isFalse (by simp [h])
  | .error e, .error f =>
    if h : e = f then .isTrue (by rw [h]) else .isFalse (by simp [h])
  | .ok _, .error _ => .isFalse (by simp)
  | .error _, .ok _ => .isFalse (by simp)

namespace Santorini

/-- Embedding of `utils.is_adjacent`: true iff the Chebyshev distance
between the two positions is exactly 1. -/
def is_adjacent (position1 position2 : Int × Int) : Bool :=
  max (position1.1 - position2.1).natAbs (position1.2 - position2.2).natAbs == 1

/-- Embedding of `utils.space_index_to_position`: returns
`(space_index // grid_size, space_index % grid_size)`. -/
def space_index_to_position (space_index : Int) (grid_size : Int := 5) : Int × Int :=
  (space_index / grid_size, space_index % grid_size)

/-- Embedding of `utils.space_position_to_index`: returns
`first * grid_size + second` for the position pair. -/
def space_position_to_index (space_position : Int × Int) (grid_size : Int := 5) : Int :=
  space_position.1 * grid_size + space_position.2

/-- Embedding of the compass-direction list literal inside
`utils.decode_action` (lines 55-64 of `src/santorini/utils.py`):
N, NE, E, SE, S, SW, W, NW. -/
def dirsDecode : List (Int × Int) :=
  [(0, -1), (1, -1), (1, 0), (1, 1), (0, 1), (-1, 1), (-1, 0), (-1, -1)]

/-- Embedding of the compass-direction list literal inside
`utils.encode_action` (lines 106-115 of `src/santorini/utils.py`):
the same eight vectors in the same order as in `decode_action`. -/
def dirsEncode : List (Int × Int) :=
  [(0, -1), (1, -1), (1, 0), (1, 1), (0, 1), (-1, 1), (-1, 0), (-1, -1)]

/-- Embedding of `utils.decode_action`. Mirrors the Python code: range
check on the action integer, `divmod` split into from-index, move
direction and build direction, and the conversion of the from-index by
`from_idx % 5, from_idx // 5` (the source hardcodes 5 here, not
`grid_size`). The decoded move-to and build-on positions are not
validated against the board. -/
def decode_action (action : Int) (grid_size : Int := 5) :
    Except String ((Int × Int) × (Int × Int) × (Int × Int)) :=
  if ¬ (0 ≤ action ∧ action < grid_size * grid_size * 8 * 8) then
    .error "Action is out of bounds for grid size."
  else
    let from_idx := action / (8 * 8)
    let rem := action % (8 * 8)
    let move_dir := rem / 8
    let build_dir := rem % 8
    let from_x := from_idx % 5
    let from_y := from_idx / 5
    let dm := dirsDecode.getD move_dir.toNat (0, 0)
    let db := dirsDecode.getD build_dir.toNat (0, 0)
    let to_x := from_x + dm.1
    let to_y := from_y + dm.2
    let build_x := to_x + db.1
    let build_y := to_y + db.2
    .ok ((from_x, from_y), (to_x, to_y), (build_x, build_y))

/-- Embedding of `utils.encode_action`. Mirrors the Python code
faithfully, including the validation loop that rejects any of the six
coordinates (from, to, and build) outside `[0, grid_size)` — even
though the docstring and the `validate from-square` comment in the
source say only the from-square should be range checked. -/
def encode_action (move_build_tuple : (Int × Int) × (Int × Int) × (Int × Int))
    (grid_size : Int := 5) : Except String Int :=
  let fp := move_build_tuple.1
  let tp := move_build_tuple.2.1
  let bp := move_build_tuple.2.2
  if ¬ ([fp.1, fp.2, tp.1, tp.2, bp.1, bp.2].all fun index =>
      0 ≤ index ∧ index < grid_size) then
    .error "Coords must be in range."
  else
    let dx_move := tp.1 - fp.1
    let dy_move := tp.2 - fp.2
    match dirsEncode.findIdx? (fun d => d = (dx_move, dy_move)) with
    | none => .error "Invalid move direction."
    | some move_dir =>
      let dx_build := bp.1 - tp.1
      let dy_build := bp.2 - tp.2
      match dirsEncode.findIdx? (fun d => d = (dx_build, dy_build)) with
      | none => .error "Invalid build direction."
      | some build_dir =>
        let from_idx := fp.1 + fp.2 * grid_size
        .ok (from_idx * (8 * 8) + (move_dir : Int) * 8 + (build_dir : Int))

/-- Embedding of the `Worker` class from `src/santorini/player.py`:
only the fields relevant to board legality are kept. The owning player
is represented by its numeric id (the `Player.__bool__` of the owner is
`bool(player_id)`), the worker by its numeric id; `none` models the
Python `None` defaults of `Worker.__init__`. -/
structure Worker where
  playerId : Option Int
  workerId : Option Int
deriving DecidableEq, Repr

/-- Truthiness of a Python value modelled as `Option Int`: `None` and
`0` are falsy, every other integer is truthy. -/
def optIntTruthy : Option Int → Bool
  | none => false
  | some n => n != 0

/-- Embedding of `Worker.__bool__`: `bool(self._player or self._worker_id)`,
where the owning player is itself truthy iff its id is truthy. -/
def Worker.truthy (w : Worker) : Bool :=
  optIntTruthy w.playerId || optIntTruthy w.workerId

/-- The canonical empty worker `Worker()` (no player, no id). -/
def Worker.empty : Worker := ⟨none, none⟩

/-- Building height: an integer, or `⊤` for the Python `math.inf`
capped sentinel. -/
abbrev Height := WithTop Int

/-- Contents of one board cell: the `[worker, height]` list stored in
the `_state` defaultdict. -/
abbrev Cell := Worker × Height

/-- Embedding of the `Board` class state from `src/santorini/board.py`.
The `defaultdict` `_state` is modelled by an association list `state`
(later writes are consed at the front); the display-only fields
(`_images`, selection state) carry no rules content and the selection
fields are modelled only as inert data. -/
structure Board where
  gridSize : Int
  maxBuildingHeight : Int
  gameOver : Bool
  state : List ((Int × Int) × Cell)
  selectedPosition : Option (Int × Int)
deriving DecidableEq, Repr

/-- Embedding of `Board.__init__(grid_size, max_building_height)`:
empty state, game-over flag false, nothing selected. -/
def Board.init (grid_size : Int := 5) (max_building_height : Int := 3) : Board :=
  { gridSize := grid_size
    maxBuildingHeight := max_building_height
    gameOver := false
    state := []
    selectedPosition := none }

/-- Lookup of `self._state[position]` with the defaultdict fallback
`[Worker(), 0]` for keys that were never written. -/
def Board.cell (b : Board) (position : Int × Int) : Cell :=
  match b.state.find? (fun e => e.1 = position) with
  | some e => e.2
  | none => (Worker.empty, (0 : Int))

/-- Embedding of `Board.get_position_worker`. Total: the defaultdict
returns the empty worker for unwritten keys instead of raising. -/
def Board.get_position_worker (b : Board) (position : Int × Int) : Worker :=
  (b.cell position).1

/-- Embedding of `Board.get_position_height`. Total: the defaultdict
returns height 0 for unwritten keys instead of raising. -/
def Board.get_position_height (b : Board) (position : Int × Int) : Height :=
  (b.cell position).2

/-- Embedding of `Board.set_position_worker` restricted to the board
state (the Python method additionally updates the cached position and
valid moves of a truthy worker argument, state that lives on the
`Worker` object and is not part of `Board._state`). -/
def Board.set_position_worker (b : Board) (position : Int × Int) (worker : Worker) :
    Board :=
  { b with state := (position, (worker, (b.cell position).2)) :: b.state }

/-- Embedding of `Board.set_position_height`. -/
def Board.set_position_height (b : Board) (position : Int × Int) (height : Height) :
    Board :=
  { b with state := (position, ((b.cell position).1, height)) :: b.state }

/-- Embedding of `Board.set_state`: replaces the whole cell mapping. -/
def Board.set_state (b : Board) (state_data : List ((Int × Int) × Cell)) : Board :=
  { b with state := state_data }

/-- Embedding of `Board.is_on_board`: both coordinates in
`[0, grid_size)`. -/
def Board.is_on_board (b : Board) (position : Int × Int) : Bool :=
  decide (0 ≤ position.1 ∧ position.1 < b.gridSize ∧
          0 ≤ position.2 ∧ position.2 < b.gridSize)

/-- Embedding of `Board.can_move`, clause for clause: both positions on
the board, adjacency, a truthy worker on the source and none on the
target, and the target height at most one above the source height
(the Python comparison `target_height > current_height + 1` on
possibly-infinite heights is mirrored in `WithTop Int`). -/
def Board.can_move (b : Board) (worker_position target_position : Int × Int) : Bool :=
  if ¬ (b.is_on_board worker_position ∧ b.is_on_board target_position) then false
  else if ¬ is_adjacent worker_position target_position then false
  else
    let current_worker := b.get_position_worker worker_position
    let target_worker := b.get_position_worker target_position
    if ¬ current_worker.truthy ∨ target_worker.truthy then false
    else
      let current_height := b.get_position_height worker_position
      let target_height := b.get_position_height target_position
      if target_height > current_height + 1 then false
      else true

/-- Embedding of `Board.check_height_win_condition`: sets the game-over
flag if the height at the position equals the max building height. -/
def Board.check_height_win_condition (b : Board) (position : Int × Int) : Board :=
  if b.get_position_height position = (b.maxBuildingHeight : Height) then
    { b with gameOver := true }
  else b

/-- Embedding of `Board.move_worker`, exactly as written in the source
(lines 117-128 of `src/santorini/board.py`): it reads the worker at the
current position, clears that cell, writes the worker at the target
position and runs the height win check. It performs no `can_move`
validation and never raises. -/
def Board.move_worker (b : Board) (current_position target_position : Int × Int) :
    Board :=
  let worker := b.get_position_worker current_position
  let b1 := b.set_position_worker current_position Worker.empty
  let b2 := b1.set_position_worker target_position worker
  b2.check_height_win_condition target_position

/-- Embedding of `Board.can_build`: both positions on the board,
adjacency, build position not capped (`height == math.inf` in Python,
`= ⊤` here), and no truthy worker on the build position. -/
def Board.can_build (b : Board) (worker_position build_position : Int × Int) : Bool :=
  if ¬ (b.is_on_board worker_position ∧ b.is_on_board build_position) then false
  else if ¬ is_adjacent worker_position build_position then false
  else if b.get_position_height build_position = (⊤ : Height) then false
  else if (b.get_position_worker build_position).truthy then false
  else true

/-- Embedding of `Board.build`: raises unless `can_build` holds;
otherwise increments the height when it is below the max building
height and caps the cell to the infinite sentinel when it is not. -/
def Board.build (b : Board) (worker_position build_position : Int × Int) :
    Except String Board :=
  if ¬ b.can_build worker_position build_position then
    .error "That is not a valid build position."
  else if b.get_position_height build_position < (b.maxBuildingHeight : Height) then
    .ok (b.set_position_height build_position
      (b.get_position_height build_position + 1))
  else
    .ok (b.set_position_height build_position (⊤ : Height))

/-- Embedding of `Board.can_place`: on the board and no truthy worker. -/
def Board.can_place (b : Board) (position : Int × Int) : Bool :=
  if ¬ b.is_on_board position then false
  else if (b.get_position_worker position).truthy then false
  else true

/-- Embedding of `Board.place`: just `set_position_worker`. -/
def Board.place (b : Board) (position : Int × Int) (worker : Worker) : Board :=
  b.set_position_worker position worker

/-- Embedding of `Board.check_cannot_move_lose_condition`. The Python
method iterates over the workers of the player and returns early, with
no write, as soon as one has a nonempty cached valid-move set;
otherwise it sets the game-over flag. The cached worker move sets live
on the `Worker` objects, so the method is parametrised here by the
list of cached move-set sizes of the workers of the player. -/
def Board.check_cannot_move_lose_condition (b : Board) (workerMoveCounts : List Nat) :
    Board × Bool :=
  if workerMoveCounts.any (fun n => n ≠ 0) then (b, false)
  else ({ b with gameOver := true }, true)

/-- Embedding of `Board.game_over_status`. -/
def Board.game_over_status (b : Board) : Bool :=
  b.gameOver

/-- Embedding of `Board.set_selected_position`: stores the position if
it is `None` or on the board; a position off the board is ignored. -/
def Board.set_selected_position (b : Board) (position : Option (Int × Int)) : Board :=
  match position with
  | none => { b with selectedPosition := none }
  | some p => if b.is_on_board p then { b with selectedPosition := some p } else b

/-- One mutating operation of the `Board` class, used to reason about
arbitrary operation sequences on one `Board` instance. Every public
method of the class that writes any instance attribute has a
constructor; `updateWorkerValidMoves`, `updateWorkerValidBuilds` and
`setSelectedWorker` write only worker-cache or selection attributes
that are not part of the modelled board state. -/
inductive Op where
  | setPositionWorker (position : Int × Int) (worker : Worker)
  | setPositionHeight (position : Int × Int) (height : Height)
  | setState (state_data : List ((Int × Int) × Cell))
  | moveWorker (current target : Int × Int)
  | buildAt (worker_position build_position : Int × Int)
  | placeWorker (position : Int × Int) (worker : Worker)
  | checkHeightWin (position : Int × Int)
  | checkCannotMoveLose (workerMoveCounts : List Nat)
  | updateWorkerValidMoves
  | updateWorkerValidBuilds
  | setSelectedPosition (position : Option (Int × Int))
  | setSelectedWorker
deriving DecidableEq, Repr

/-- Effect of one `Board` method call on the board. A `build` call that
raises leaves the board unchanged (the Python method raises before any
mutation); the methods that only touch worker caches or the selected
worker leave the modelled state unchanged. -/
def applyOp (b : Board) : Op → Board
  | .setPositionWorker p w => b.set_position_worker p w
  | .setPositionHeight p h => b.set_position_height p h
  | .setState s => b.set_state s
  | .moveWorker c t => b.move_worker c t
  | .buildAt wp bp =>
    match b.build wp bp with
    | .ok b2 => b2
    | .error _ => b
  | .placeWorker p w => b.place p w
  | .checkHeightWin p => b.check_height_win_condition p
  | .checkCannotMoveLose counts => (b.check_cannot_move_lose_condition counts).1
  | .updateWorkerValidMoves => b
  | .updateWorkerValidBuilds => b
  | .setSelectedPosition p => b.set_selected_position p
  | .setSelectedWorker => b

/-- A sequence of `Board` method calls, applied in order. -/
def applyOps (b : Board) (ops : List Op) : Board :=
  ops.foldl applyOp b

/-- Worker 1 of player 1 (the fixture `worker_a1`). -/
def workerA1 : Worker := ⟨some 1, some 1⟩

/-- Worker 2 of player 1 (the fixture `worker_a2`). -/
def workerA2 : Worker := ⟨some 1, some 2⟩

/-- Worker 1 of player 2 (the fixture `worker_b1`). -/
def workerB1 : Worker := ⟨some 2, some 1⟩

/-- Worker 2 of player 2 (the fixture `worker_b2`). -/
def workerB2 : Worker := ⟨some 2, some 2⟩

/-- The populated board of the test fixtures
(`src/tests/conftest.py`, `board_populated`), with the capped cell
`(1,0)` at the infinite sentinel height as `src/tests/test_board.py`
expects. -/
def sampleBoard : Board :=
  { gridSize := 5
    maxBuildingHeight := 3
    gameOver := false
    selectedPosition := none
    state :=
      [((0, 0), (workerA1, (0 : Int))),
       ((1, 1), (workerA2, (0 : Int))),
       ((0, 1), (workerB1, (2 : Int))),
       ((4, 4), (workerB2, (1 : Int))),
       ((2, 0), (Worker.empty, (1 : Int))),
       ((3, 3), (Worker.empty, (1 : Int))),
       ((1, 2), (Worker.empty, (3 : Int))),
       ((4, 3), (Worker.empty, (3 : Int))),
       ((1, 0), (Worker.empty, (⊤ : Height)))] }

/-- A box space as declared through `gymnasium.spaces.Box(low, high,
shape, dtype)` in `src/santorini/env.py`. -/
structure BoxSpace where
  low : Int
  high : Int
  shape : List Nat
deriving DecidableEq, Repr

/-- The dict observation space of one agent: the two keys
`observation` and `action_mask` of the `spaces.Dict` literal in
`SantoriniEnv.__init__`. -/
structure DictSpace where
  observation : BoxSpace
  action_mask : BoxSpace
deriving DecidableEq, Repr

/-- Embedding of the agent name list built in `SantoriniEnv.__init__`:
`[f"player_{i}" for i in range(num_players)]`. -/
def agentNames (num_players : Nat) : List String :=
  (List.range num_players).map (fun i => "player_" ++ toString i)

/-- Embedding of `self.observation_spaces` from `SantoriniEnv.__init__`
(lines 45-53 of `src/santorini/env.py`): one identical dict space per
agent, with `observation` a Box of shape `(5, 5, 11)` with low 0 and
high 1 and `action_mask` a Box of shape `(5*5*8*8,)` with low 0 and
high 1. -/
def observation_spaces (num_players : Nat) : List (String × DictSpace) :=
  (agentNames num_players).map
    (fun name =>
      (name,
       { observation := { low := 0, high := 1, shape := [5, 5, 11] }
         action_mask := { low := 0, high := 1, shape := [5 * 5 * 8 * 8] } }))

/-- Embedding of `SantoriniEnv.set_game_result` (lines 258-264 of
`src/santorini/env.py`): agent `i` receives reward
`result_val * (1 if i == 0 else -1)` and every agent is terminated.
Returns the per-agent reward assignment in agent order. -/
def set_game_result (agents : List String) (result_val : Int) : List (String × Int) :=
  agents.enum.map (fun p => (p.2, result_val * (if p.1 = 0 then 1 else -1)))

/-- The terminal reward list of `set_game_result` in agent order. -/
def terminalRewards (agents : List String) (result_val : Int) : List Int :=
  (set_game_result agents result_val).map (fun p => p.2)

/-- The direction table asserted by claim C2 (and by the spec), in the
order NW, N, NE, E, SE, S, SW, W. Written from the words of the spec,
for comparison against the tables in the source. -/
def claimedDirTable : List (Int × Int) :=
  [(-1, -1), (0, -1), (1, -1), (1, 0), (1, 1), (0, 1), (-1, 1), (-1, 0)]

/-- The direction table the source actually uses, in the order
N, NE, E, SE, S, SW, W, NW; this is the amended form of claim C2. -/
def amendedDirTable : List (Int × Int) :=
  [(0, -1), (1, -1), (1, 0), (1, 1), (0, 1), (-1, 1), (-1, 0), (-1, -1)]

/-- The dict space every agent is mapped to by `observation_spaces`,
as the amended claim C7 states it. -/
def amendedDictSpace : DictSpace :=
  { observation := { low := 0, high := 1, shape := [5, 5, 11] }
    action_mask := { low := 0, high := 1, shape := [5 * 5 * 8 * 8] } }

/-- The first agent-to-space entry of the default two-player
environment, used to witness the amended claim C7. -/
def obsSpaceEntry0 : String × DictSpace := ("player_0", amendedDictSpace)

/-- The board obtained from `sampleBoard` by the legal build from
`(2, 0)` on `(2, 1)`: the height of `(2, 1)` goes from 0 to 1. -/
def sampleBuildOk : Board :=
  sampleBoard.set_position_height (2, 1) ((0 : Int) + 1)

/-- A board whose game-over flag is already set, used to witness the
monotonicity claim C10. -/
def gameOverBoard : Board :=
  { Board.init 5 3 with gameOver := true }

end Santorini

namespace Santorini

/-! Helper lemmas shared by the claim theorems. -/

/-- Lookup in an association list returns nothing when the key occurs
nowhere in the list. -/
theorem find?_eq_none_of_not_mem_keys {α β : Type} [DecidableEq α]
    (l : List (α × β)) (p : α) (h : p ∉ l.map Prod.fst) :
    l.find? (fun e => e.1 = p) = none := by
  induction l with
  | nil => rfl
  | cons a t ih =>
    simp only [List.map_cons, List.mem_cons, not_or] at h
    rw [List.find?_cons]
    have : (decide (a.1 = p)) = false := by
      simp only [decide_eq_false_iff_not]
      exact fun hc => h.1 hc.symm
    rw [this]
    exact ih h.2

/-- Reading the cell just written by `set_position_height` gives the
old worker with the new height. -/
theorem cell_set_position_height_same (b : Board) (p : Int × Int) (h : Height) :
    (b.set_position_height p h).cell p = ((b.cell p).1, h) := by
  simp [Board.set_position_height, Board.cell, List.find?_cons]

/-- Reading any other cell after `set_position_height` gives the old
cell contents. -/
theorem cell_set_position_height_other (b : Board) (p q : Int × Int) (h : Height)
    (hq : q ≠ p) :
    (b.set_position_height p h).cell q = b.cell q := by
  simp only [Board.set_position_height, Board.cell, List.find?_cons]
  have : (decide (p = q)) = false := by
    simp only [decide_eq_false_iff_not]
    exact fun hc => hq hc.symm
  rw [this]

/-! Claim C1. -/

/-- C1: the claimed round trip `encode_action (decode_action a) = a`
fails on the code at `a = 0`: `decode_action 0` succeeds and yields
the off-board move target `(0, -1)` and build target `(0, -2)`, and
`encode_action` then raises because its validation loop range checks
every coordinate, not only the from-square as its own docstring and
`validate from-square` comment describe. This theorem evaluates the
code at that failing input. -/
theorem C1_round_trip_fails_at_zero :
    decode_action 0 5 = .ok ((0, 0), (0, -1), (0, -2)) ∧
    (decode_action 0 5).bind (fun t => encode_action t 5) =
      .error "Coords must be in range." ∧
    (decode_action 0 5).bind (fun t => encode_action t 5) ≠ .ok 0 := by
  decide

/-! Claim C2. -/

/-- C2 counterexample: the direction table claimed by the spec starts
with NW `(-1, -1)`, but the table used by `decode_action` (and equally
by `encode_action`) has `(0, -1)` (north) at index 0, as the decoding
of action 0 shows: the move target of action 0 from `(0, 0)` is
`(0, -1)`, not `(-1, -1)`. -/
theorem C2_counterexample :
    dirsDecode.getD 0 (0, 0) = (0, -1) ∧
    dirsEncode.getD 0 (0, 0) = (0, -1) ∧
    claimedDirTable.getD 0 (0, 0) = (-1, -1) ∧
    dirsDecode.getD 0 (0, 0) ≠ claimedDirTable.getD 0 (0, 0) ∧
    decode_action 0 5 = .ok ((0, 0), (0, -1), (0, -2)) := by
  decide

/-- C2 amended: the 8-element compass table shared by `encode_action`
and `decode_action` lists, in order, N `(0,-1)`, NE `(1,-1)`, E `(1,0)`,
SE `(1,1)`, S `(0,1)`, SW `(-1,1)`, W `(-1,0)`, NW `(-1,-1)`; both
functions use this same table, and the index lookup done by
`encode_action` inverts the vector lookup done by `decode_action` for
every direction index. -/
theorem C2_direction_table :
    dirsDecode = amendedDirTable ∧
    dirsEncode = amendedDirTable ∧
    (∀ d : Fin 8,
      dirsEncode.findIdx? (fun v => v = dirsDecode.getD d (0, 0)) = some d.val) := by
  refine ⟨rfl, rfl, ?_⟩
  decide

/-! Claim C3. -/

/-- C3: the claim says `move_worker` fails with an invalid-move error
whenever `can_move` is false. The code performs no validation: on the
populated fixture board, `can_move ((0,0), (1,1))` is false because
`(1, 1)` is occupied, yet `move_worker ((0,0), (1,1))` silently
relocates worker a1 onto `(1, 1)` (overwriting worker a2) and empties
`(0, 0)`, never raising. This contradicts the cited test
`test_move_worker_bad`, which expects a `ValueError`. -/
theorem C3_move_worker_skips_validation :
    sampleBoard.can_move (0, 0) (1, 1) = false ∧
    (sampleBoard.move_worker (0, 0) (1, 1)).get_position_worker (1, 1) = workerA1 ∧
    (sampleBoard.move_worker (0, 0) (1, 1)).get_position_worker (0, 0) =
      Worker.empty := by
  decide

/-! Claim C6. -/

/-- C6 counterexample: writing a position as `(x, y)` in the order the
pair is written, the claim predicts the encoding `y*grid_size + x` and
the decoding `(i % grid_size, i // grid_size)`. The code linearizes
the first component as the major index: the position `(0, 1)` encodes
to `0*5 + 1 = 1`, not to `1*5 + 0 = 5`, and index 1 decodes to
`(0, 1)`, not to `(1 % 5, 1 / 5) = (1, 0)`. -/
theorem C6_counterexample :
    space_position_to_index (0, 1) 5 = 1 ∧
    (1 : Int) ≠ 1 * 5 + 0 ∧
    space_index_to_position 1 5 = (0, 1) ∧
    ((0, 1) : Int × Int) ≠ (1 % 5, 1 / 5) := by
  decide

/-- C6 amended: the space encoding linearizes the FIRST component of
the position pair as the major index, `index = x*grid_size + y` for a
position `(x, y)`, and the decoding returns
`(index // grid_size, index % grid_size)`; on the stated domains each
is the inverse of the other. -/
theorem C6_space_encoding :
    ∀ (g x y i : Int), 0 < g → 0 ≤ y → y < g →
      space_position_to_index (x, y) g = x * g + y ∧
      space_index_to_position i g = (i / g, i % g) ∧
      space_index_to_position (space_position_to_index (x, y) g) g = (x, y) ∧
      space_position_to_index (space_index_to_position i g) g = i := by
  intro g x y i hg hy0 hyg
  have hgne : g ≠ 0 := ne_of_gt hg
  refine ⟨rfl, rfl, ?_, ?_⟩
  · unfold space_position_to_index space_index_to_position
    have hcomm : x * g + y = y + x * g := by ring
    have hdiv : (x * g + y) / g = x := by
      rw [hcomm, Int.add_mul_ediv_right y x hgne,
          Int.ediv_eq_zero_of_lt hy0 hyg, zero_add]
    have hmod : (x * g + y) % g = y := by
      rw [hcomm, Int.add_mul_emod_self, Int.emod_eq_of_lt hy0 hyg]
    simp only [hdiv, hmod]
  · show (i / g) * g + i % g = i
    have h := Int.ediv_add_emod i g
    calc (i / g) * g + i % g = g * (i / g) + i % g := by ring
    _ = i := h

/-- C6 witness: the amended claim evaluated at grid size 5, position
`(2, 3)` and index 17. -/
theorem C6_space_encoding_witness :
    space_position_to_index (2, 3) 5 = 2 * 5 + 3 ∧
    space_index_to_position 17 5 = (17 / 5, 17 % 5) ∧
    space_index_to_position (space_position_to_index (2, 3) 5) 5 = (2, 3) ∧
    space_position_to_index (space_index_to_position 17 5) 5 = 17 :=
  C6_space_encoding 5 2 3 17 (by decide) (by decide) (by decide)

/-! Claim C4. -/

/-- Characterisation of `is_on_board` by the coordinate bounds. -/
theorem is_on_board_iff (b : Board) (p : Int × Int) :
    b.is_on_board p = true ↔
      (0 ≤ p.1 ∧ p.1 < b.gridSize ∧ 0 ≤ p.2 ∧ p.2 < b.gridSize) := by
  simp [Board.is_on_board]

/-- Characterisation of `is_adjacent` by the Chebyshev distance. -/
theorem is_adjacent_iff (p q : Int × Int) :
    is_adjacent p q = true ↔
      max (p.1 - q.1).natAbs (p.2 - q.2).natAbs = 1 := by
  simp [is_adjacent]

/-- C4: `can_move` returns true iff both positions are on the board,
they are at Chebyshev distance exactly 1 (so identical positions
fail), the source cell holds a real worker, the target cell holds no
worker, and the target height is at most the source height plus 1;
moreover a capped cell (height `⊤`) is never a legal move target from
a cell of finite height. -/
theorem C4_can_move_spec :
    (∀ (b : Board) (f t : Int × Int),
      b.can_move f t = true ↔
        ((0 ≤ f.1 ∧ f.1 < b.gridSize ∧ 0 ≤ f.2 ∧ f.2 < b.gridSize) ∧
         (0 ≤ t.1 ∧ t.1 < b.gridSize ∧ 0 ≤ t.2 ∧ t.2 < b.gridSize) ∧
         max (f.1 - t.1).natAbs (f.2 - t.2).natAbs = 1 ∧
         (b.get_position_worker f).truthy = true ∧
         (b.get_position_worker t).truthy = false ∧
         b.get_position_height t ≤ b.get_position_height f + 1)) ∧
    (∀ (b : Board) (f t : Int × Int),
      b.get_position_height f ≠ ⊤ → b.get_position_height t = ⊤ →
      b.can_move f t = false) := by
  have main : ∀ (b : Board) (f t : Int × Int),
      b.can_move f t = true ↔
        ((0 ≤ f.1 ∧ f.1 < b.gridSize ∧ 0 ≤ f.2 ∧ f.2 < b.gridSize) ∧
         (0 ≤ t.1 ∧ t.1 < b.gridSize ∧ 0 ≤ t.2 ∧ t.2 < b.gridSize) ∧
         max (f.1 - t.1).natAbs (f.2 - t.2).natAbs = 1 ∧
         (b.get_position_worker f).truthy = true ∧
         (b.get_position_worker t).truthy = false ∧
         b.get_position_height t ≤ b.get_position_height f + 1) := by
    intro b f t
    unfold Board.can_move
    split_ifs <;>
      simp_all [is_on_board_iff, is_adjacent_iff, not_lt, not_or,
                Bool.not_eq_true, and_assoc]
  refine ⟨main, ?_⟩
  intro b f t hf ht
  cases hcm : b.can_move f t with
  | false => rfl
  | true =>
    have h := ((main b f t).mp hcm).2.2.2.2.2
    rw [ht] at h
    have : b.get_position_height f + 1 = ⊤ := top_le_iff.mp h
    rcases WithTop.add_eq_top.mp this with h2 | h2
    · exact absurd h2 hf
    · exact absurd h2 (by simp)

/-- C4 witness: the characterisation evaluated on the fixture board —
a legal move from `(1, 1)` to `(2, 1)`, and the capped corollary for
the move from the height-0 cell `(0, 0)` onto the capped cell
`(1, 0)`. -/
theorem C4_can_move_spec_witness :
    sampleBoard.can_move (1, 1) (2, 1) = true ∧
    sampleBoard.can_move (0, 0) (1, 0) = false :=
  ⟨(C4_can_move_spec.1 sampleBoard (1, 1) (2, 1)).mpr (by decide),
   C4_can_move_spec.2 sampleBoard (0, 0) (1, 0) (by decide) (by decide)⟩

/-! Claim C5. -/

/-- C5: `build` raises exactly when `can_build` is false (and then no
new board state is produced at all, so in particular the height of the
build position is unchanged); when `can_build` is true it increments
the height of the build position by 1 if that height is below the max
building height and caps the cell to `⊤` otherwise, leaving the worker
of the build position, every other cell and the game-over flag
unchanged. -/
theorem C5_build_spec :
    ∀ (b : Board) (wp bp : Int × Int),
      ((∃ e, b.build wp bp = .error e) ↔ b.can_build wp bp = false) ∧
      (∀ b2, b.build wp bp = .ok b2 →
        b.can_build wp bp = true ∧
        (b.get_position_height bp < (b.maxBuildingHeight : Height) →
          b2.get_position_height bp = b.get_position_height bp + 1) ∧
        (¬ b.get_position_height bp < (b.maxBuildingHeight : Height) →
          b2.get_position_height bp = ⊤) ∧
        b2.get_position_worker bp = b.get_position_worker bp ∧
        (∀ q, q ≠ bp → b2.cell q = b.cell q) ∧
        b2.gameOver = b.gameOver) := by
  intro b wp bp
  unfold Board.build
  split_ifs with hcb hlt
  · refine ⟨⟨?_, ?_⟩, ?_⟩
    · rintro ⟨e, he⟩
      simp at he
    · intro hfalse
      rw [hcb] at hfalse
      cases hfalse
    · intro b2 h
      injection h with hh
      subst hh
      refine ⟨hcb, ?_, ?_, ?_, ?_, rfl⟩
      · intro _
        show (Board.cell _ bp).2 = _
        rw [cell_set_position_height_same]
      · intro hc
        exact absurd hlt hc
      · show (Board.cell _ bp).1 = _
        rw [cell_set_position_height_same]
        rfl
      · intro q hq
        exact cell_set_position_height_other b bp q _ hq
  · refine ⟨⟨?_, ?_⟩, ?_⟩
    · rintro ⟨e, he⟩
      simp at he
    · intro hfalse
      rw [hcb] at hfalse
      cases hfalse
    · intro b2 h
      injection h with hh
      subst hh
      refine ⟨hcb, ?_, ?_, ?_, ?_, rfl⟩
      · intro hc
        exact absurd hc hlt
      · intro _
        show (Board.cell _ bp).2 = _
        rw [cell_set_position_height_same]
      · show (Board.cell _ bp).1 = _
        rw [cell_set_position_height_same]
        rfl
      · intro q hq
        exact cell_set_position_height_other b bp q _ hq
  · refine ⟨⟨fun _ => by simpa using hcb, fun _ => ⟨_, rfl⟩⟩, ?_⟩
    intro b2 h
    simp at h

/-- C5 witness: on the fixture board, building on the capped cell
`(1, 0)` raises, and the legal build from `(2, 0)` on `(2, 1)` yields
the board with that height incremented from 0 to 1. -/
theorem C5_build_spec_witness :
    (∃ e, sampleBoard.build (0, 0) (1, 0) = Except.error e) ∧
    sampleBuildOk.get_position_height (2, 1) = ((0 : Int) : Height) + 1 :=
  ⟨(C5_build_spec sampleBoard (0, 0) (1, 0)).1.mpr (by decide),
   by
    have h := (C5_build_spec sampleBoard (2, 0) (2, 1)).2 sampleBuildOk (by decide)
    exact (h.2.1 (by decide)).trans (by decide)⟩

/-! Claim C7. -/

/-- C7 counterexample: the `observation` entry of the declared
observation space has shape `(5, 5, 11)` for both agents of the default
two-player environment, not `(5, 5, 7)` as claimed. -/
theorem C7_counterexample :
    ((observation_spaces 2).map (fun e => e.2.observation.shape)) =
      [[5, 5, 11], [5, 5, 11]] ∧
    ([5, 5, 11] : List Nat) ≠ [5, 5, 7] := by
  decide

/-- C7 amended: for every agent of the environment (however many
players it was constructed with), the declared observation space maps
`observation` to a Box of shape `(5, 5, 11)` with low 0 and high 1 and
`action_mask` to a Box of shape `(5*5*8*8,) = (1600,)` with low 0 and
high 1. -/
theorem C7_observation_space :
    ∀ (n : Nat) (e : String × DictSpace), e ∈ observation_spaces n →
      e.2 = amendedDictSpace := by
  intro n e he
  unfold observation_spaces at he
  obtain ⟨name, _, rfl⟩ := List.mem_map.mp he
  rfl

/-- C7 witness: the amended claim evaluated at the first agent of the
default two-player environment. -/
theorem C7_observation_space_witness :
    obsSpaceEntry0.2 = amendedDictSpace :=
  C7_observation_space 2 obsSpaceEntry0 (by decide)

/-! Claim C8. -/

/-- C8 counterexample: constructed with three agents, the environment
ends a game won by the first player (`result_val = 1`) with terminal
rewards `[1, -1, -1]`, whose sum is `-1`, not zero as the claim states
for every agent list. -/
theorem C8_counterexample :
    (terminalRewards (agentNames 3) 1).sum = -1 ∧ ((-1 : Int) ≠ 0) := by
  decide

/-- C8 amended: for the default two-agent environment, on a game-ending
step `set_game_result` (with `result_val` the ±1 value computed in
`step`) assigns terminal rewards that sum to zero, with exactly one
positive reward, equal to +1, and every other reward negative. -/
theorem C8_zero_sum :
    ∀ result_val : Int, result_val = 1 ∨ result_val = -1 →
      (terminalRewards (agentNames 2) result_val).sum = 0 ∧
      ((terminalRewards (agentNames 2) result_val).filter
        (fun r => decide (0 < r))) = [1] ∧
      (∀ r ∈ terminalRewards (agentNames 2) result_val, 0 < r ∨ r < 0) := by
  rintro v (rfl | rfl) <;> refine ⟨by decide, by decide, by decide⟩

/-- C8 witness: the amended claim evaluated at `result_val = 1`. -/
theorem C8_zero_sum_witness :
    (terminalRewards (agentNames 2) 1).sum = 0 :=
  (C8_zero_sum 1 (Or.inl rfl)).1

/-! Claim C9. -/

/-- C9: cell reads are total and default — on the freshly constructed
board every cell reads as `(empty worker, height 0)`, and after any
sequence of board operations every position whose key was never
written still reads the empty worker from `get_position_worker` and
height 0 from `get_position_height` (in the embedding the defaultdict
lookup is a total function, mirroring that the Python defaultdict
never raises `KeyError`). -/
theorem C9_default_cells :
    (∀ p : Int × Int,
      (Board.init 5 3).cell p = (Worker.empty, ((0 : Int) : Height))) ∧
    (∀ (ops : List Op) (p : Int × Int),
      p ∉ (applyOps (Board.init 5 3) ops).state.map Prod.fst →
      (applyOps (Board.init 5 3) ops).get_position_worker p = Worker.empty ∧
      (applyOps (Board.init 5 3) ops).get_position_height p =
        ((0 : Int) : Height)) := by
  constructor
  · intro p
    rfl
  · intro ops p hp
    have h := find?_eq_none_of_not_mem_keys _ p hp
    constructor
    · show (Board.cell _ p).1 = _
      unfold Board.cell
      rw [h]
    · show (Board.cell _ p).2 = _
      unfold Board.cell
      rw [h]

/-- C9 witness: after writing height 1 at `(2, 2)`, the never-written
off-board position `(9, 9)` still reads the empty worker and height 0. -/
theorem C9_default_cells_witness :
    (applyOps (Board.init 5 3)
        [Op.setPositionHeight (2, 2) ((1 : Int) : Height)]).get_position_worker
      (9, 9) = Worker.empty ∧
    (applyOps (Board.init 5 3)
        [Op.setPositionHeight (2, 2) ((1 : Int) : Height)]).get_position_height
      (9, 9) = ((0 : Int) : Height) :=
  C9_default_cells.2 [Op.setPositionHeight (2, 2) ((1 : Int) : Height)] (9, 9)
    (by decide)

/-! Claim C10. -/

/-- The board produced by a `build` call (unchanged when the call
raises) keeps the game-over flag of the original board. -/
theorem build_keeps_game_over (b : Board) (wp bp : Int × Int) :
    (match b.build wp bp with
      | .ok b2 => b2
      | .error _ => b).gameOver = b.gameOver := by
  unfold Board.build
  split_ifs <;> rfl

/-- C10: the game-over flag is monotone — it is false on construction,
no single board operation resets it, and hence once
`game_over_status` returns true it returns true after every further
sequence of board operations on the same board. -/
theorem C10_game_over_monotone :
    (Board.init 5 3).game_over_status = false ∧
    (∀ (b : Board) (op : Op),
      b.game_over_status = true → (applyOp b op).game_over_status = true) ∧
    (∀ (b : Board) (ops : List Op),
      b.game_over_status = true → (applyOps b ops).game_over_status = true) := by
  have hop : ∀ (b : Board) (op : Op),
      b.game_over_status = true → (applyOp b op).game_over_status = true := by
    intro b op h
    cases op with
    | setPositionWorker p w => exact h
    | setPositionHeight p hh => exact h
    | setState s => exact h
    | moveWorker c t =>
      show (Board.check_height_win_condition _ t).gameOver = true
      unfold Board.check_height_win_condition
      split_ifs
      · rfl
      · exact h
    | buildAt wp bp =>
      show (match Board.build b wp bp with
        | .ok b2 => b2
        | .error _ => b).gameOver = true
      rw [build_keeps_game_over]
      exact h
    | placeWorker p w => exact h
    | checkHeightWin p =>
      show (Board.check_height_win_condition b p).gameOver = true
      unfold Board.check_height_win_condition
      split_ifs
      · rfl
      · exact h
    | checkCannotMoveLose counts =>
      show ((Board.check_cannot_move_lose_condition b counts).1).gameOver = true
      unfold Board.check_cannot_move_lose_condition
      split_ifs
      · exact h
      · rfl
    | updateWorkerValidMoves => exact h
    | updateWorkerValidBuilds => exact h
    | setSelectedPosition p =>
      cases p with
      | none => exact h
      | some q =>
        show (if b.is_on_board q then { b with selectedPosition := some q }
          else b).gameOver = true
        split_ifs
        · exact h
        · exact h
    | setSelectedWorker => exact h
  refine ⟨rfl, hop, ?_⟩
  intro b ops h
  induction ops generalizing b with
  | nil => exact h
  | cons o t ih => exact ih _ (hop b o h)

/-- C10 witness: a board with the flag set keeps it set across a
single operation and across an operation sequence including
`set_state` and a cannot-move check. -/
theorem C10_game_over_monotone_witness :
    (applyOp gameOverBoard
      (Op.setPositionHeight (0, 0) ((0 : Int) : Height))).game_over_status = true ∧
    (applyOps gameOverBoard
      [Op.setState [], Op.checkCannotMoveLose [3]]).game_over_status = true :=
  ⟨C10_game_over_monotone.2.1 gameOverBoard _ rfl,
   C10_game_over_monotone.2.2 gameOverBoard _ rfl⟩

end Santorini

